import Mathlib

/-!
Verification development for the `pack-league` daemon's League-client
gameflow monitor.  The definitions below are shallow embeddings of the
Rust source files `src/daemon/src/state.rs`, `src/daemon/src/gameflow_monitor.rs`,
`src/daemon/src/lcu.rs` and `src/daemon/src/lcu_websocket.rs`.
Asynchronous code (the orchestration loop and its two transport
sub-loops) is embedded as a deterministic interpreter over an explicit
schedule of environment events, producing an observable action trace.
-/

namespace PackLeague

/-! ## state.rs : GameflowPhase -/

/-- The gameflow phases of the League client, from `state.rs` (enum `GameflowPhase`). -/
inductive GameflowPhase where
  | None
  | Lobby
  | Matchmaking
  | ReadyCheck
  | ChampSelect
  | GameStart
  | FailedToLaunch
  | InProgress
  | Reconnect
  | WaitingForStats
  | PreEndOfGame
  | EndOfGame
  | TerminatedInError
  | CheckedIntoTournament
deriving DecidableEq, Repr

/-- Embeds `GameflowPhase::is_in_game` from `state.rs`. -/
def GameflowPhase.is_in_game : GameflowPhase → Bool
  | .InProgress | .Reconnect | .GameStart => true
  | _ => false

/-- Embeds `GameflowPhase::is_in_client` from `state.rs`. -/
def GameflowPhase.is_in_client : GameflowPhase → Bool
  | .Lobby | .Matchmaking | .ReadyCheck | .ChampSelect
  | .WaitingForStats | .PreEndOfGame | .EndOfGame => true
  | _ => false

/-- Embeds `GameflowPhase::display_name` from `state.rs`. -/
def GameflowPhase.display_name : GameflowPhase → String
  | .None => "Not Running"
  | .Lobby => "In Lobby"
  | .Matchmaking => "Finding Match"
  | .ReadyCheck => "Match Found"
  | .ChampSelect => "Champion Select"
  | .GameStart => "Game Starting"
  | .FailedToLaunch => "Failed to Launch"
  | .InProgress => "In Game"
  | .Reconnect => "Reconnecting"
  | .WaitingForStats => "Loading Stats"
  | .PreEndOfGame => "Game Ending"
  | .EndOfGame => "Post Game"
  | .TerminatedInError => "Error"
  | .CheckedIntoTournament => "Tournament"

/-- Rendering of a phase by the derived `Debug` implementation
(`format!("{:?}", phase)` prints the variant name). -/
def GameflowPhase.debugName : GameflowPhase → String
  | .None => "None"
  | .Lobby => "Lobby"
  | .Matchmaking => "Matchmaking"
  | .ReadyCheck => "ReadyCheck"
  | .ChampSelect => "ChampSelect"
  | .GameStart => "GameStart"
  | .FailedToLaunch => "FailedToLaunch"
  | .InProgress => "InProgress"
  | .Reconnect => "Reconnect"
  | .WaitingForStats => "WaitingForStats"
  | .PreEndOfGame => "PreEndOfGame"
  | .EndOfGame => "EndOfGame"
  | .TerminatedInError => "TerminatedInError"
  | .CheckedIntoTournament => "CheckedIntoTournament"

/-- Embeds `impl From<&str> for GameflowPhase` from `state.rs`: the fourteen
known wire strings map to their phase, everything else to `None`. -/
def GameflowPhase.fromString (s : String) : GameflowPhase :=
  if s = "None" then .None
  else if s = "Lobby" then .Lobby
  else if s = "Matchmaking" then .Matchmaking
  else if s = "ReadyCheck" then .ReadyCheck
  else if s = "ChampSelect" then .ChampSelect
  else if s = "GameStart" then .GameStart
  else if s = "FailedToLaunch" then .FailedToLaunch
  else if s = "InProgress" then .InProgress
  else if s = "Reconnect" then .Reconnect
  else if s = "WaitingForStats" then .WaitingForStats
  else if s = "PreEndOfGame" then .PreEndOfGame
  else if s = "EndOfGame" then .EndOfGame
  else if s = "TerminatedInError" then .TerminatedInError
  else if s = "CheckedIntoTournament" then .CheckedIntoTournament
  else .None

/-- The fourteen wire strings recognized by `From<&str> for GameflowPhase`. -/
def knownPhaseStrings : List String :=
  ["None", "Lobby", "Matchmaking", "ReadyCheck", "ChampSelect", "GameStart",
   "FailedToLaunch", "InProgress", "Reconnect", "WaitingForStats",
   "PreEndOfGame", "EndOfGame", "TerminatedInError", "CheckedIntoTournament"]

/-! ## gameflow_monitor.rs : TargetLayout and events -/

/-- The target stage layout, from `gameflow_monitor.rs` (enum `TargetLayout`). -/
inductive TargetLayout where
  | None
  | ClientCentered
  | GameFullscreen
deriving DecidableEq, Repr

/-- Embeds `TargetLayout::layout_name`. -/
def TargetLayout.layout_name : TargetLayout → Option String
  | .None => Option.none
  | .ClientCentered => some "client_centered"
  | .GameFullscreen => some "game_fullscreen"

/-- Embeds `TargetLayout::from_phase`. -/
def TargetLayout.from_phase (phase : GameflowPhase) : TargetLayout :=
  if phase.is_in_game then .GameFullscreen
  else if phase.is_in_client then .ClientCentered
  else .None

/-- Embeds struct `GameflowChangeEvent` from `gameflow_monitor.rs`. -/
structure GameflowChangeEvent where
  phase : String
  display_name : String
  is_in_game : Bool
  is_in_client : Bool
deriving DecidableEq, Repr

/-- Embeds struct `StageChangeEvent` from `gameflow_monitor.rs`. -/
structure StageChangeEvent where
  layout : String
  phase : String
  reason : String
deriving DecidableEq, Repr

/-- Embeds enum `GameflowEvent` from `gameflow_monitor.rs`. -/
inductive GameflowEvent where
  | PhaseChanged (e : GameflowChangeEvent)
  | StageChanged (e : StageChangeEvent)
deriving DecidableEq, Repr

/-- The monitor's mutable locals `last_phase` and `last_layout` from
`run_monitor_loop`, threaded through the handler explicitly. -/
structure MonState where
  lastPhase : GameflowPhase
  lastLayout : TargetLayout
deriving DecidableEq, Repr

/-- Embeds `send_stage_change` from `gameflow_monitor.rs`: builds the
`StageChanged` event sent on the channel. -/
def send_stage_change (layout : TargetLayout) (phase : GameflowPhase) : GameflowEvent :=
  let layoutName := (layout.layout_name).getD "none"
  let reason :=
    match layout with
    | .None => "League client not active"
    | .ClientCentered => "Client phase: " ++ phase.display_name
    | .GameFullscreen => "In game: " ++ phase.display_name
  .StageChanged ⟨layoutName, phase.debugName, reason⟩

/-- Embeds `handle_phase_change` from `gameflow_monitor.rs` as a pure
state transformer: returns the updated monitor state and the list of
events sent on the channel, in send order. -/
def handle_phase_change (phase : GameflowPhase) (s : MonState) :
    MonState × List GameflowEvent :=
  if phase ≠ s.lastPhase then
    let pcEvent : GameflowEvent :=
      .PhaseChanged ⟨phase.debugName, phase.display_name,
                     phase.is_in_game, phase.is_in_client⟩
    let newLayout := TargetLayout.from_phase phase
    if newLayout ≠ s.lastLayout then
      (⟨phase, newLayout⟩, [pcEvent, send_stage_change newLayout phase])
    else
      (⟨phase, s.lastLayout⟩, [pcEvent])
  else
    (s, [])

/-- Feeds a sequence of observed phases through `handle_phase_change`,
collecting all emitted events in order. -/
def runPhases (ps : List GameflowPhase) (s : MonState) :
    MonState × List GameflowEvent :=
  match ps with
  | [] => (s, [])
  | p :: rest =>
    let r := handle_phase_change p s
    let r' := runPhases rest r.1
    (r'.1, r.2 ++ r'.2)

/-- Counts the `PhaseChanged` events in a list of emitted events. -/
def countPhaseChanged (es : List GameflowEvent) : Nat :=
  es.countP fun e => match e with | .PhaseChanged _ => true | _ => false

/-! ## A JSON value model (for serde_json::Value) -/

/-- JSON values, modelling `serde_json::Value`.  Numbers are modelled as
integers, which covers every frame the client protocol exchanges (the
only numeric positions are opcodes). -/
inductive Json where
  | null
  | bool (b : Bool)
  | num (n : Int)
  | str (s : String)
  | arr (xs : List Json)
  | obj (fields : List (String × Json))

/-- Models `Value::as_array`. -/
def Json.as_array : Json → Option (List Json)
  | .arr xs => some xs
  | _ => Option.none

/-- Models `Value::as_u64`: succeeds only on non-negative integer numbers. -/
def Json.as_u64 : Json → Option Nat
  | .num n => if 0 ≤ n then some n.toNat else Option.none
  | _ => Option.none

/-- Models `Value::as_str`. -/
def Json.as_str : Json → Option String
  | .str s => some s
  | _ => Option.none

/-- Models `Value::get(key)` on an object (field lookup by name). -/
def Json.objGet : Json → String → Option Json
  | .obj fields, k => fields.lookup k
  | _, _ => Option.none

/-! ## lcu_websocket.rs : push-frame decoding -/

/-- Embeds struct `LcuEvent` from `lcu_websocket.rs`. -/
structure LcuEvent where
  uri : String
  event_type : String
  data : Json

/-- The gameflow-phase resource path, `uris::GAMEFLOW_PHASE` in
`lcu_websocket.rs`. -/
def GAMEFLOW_PHASE : String := "/lol-gameflow/v1/gameflow-phase"

/-- Embeds `LcuWebSocket::parse_event` from `lcu_websocket.rs`, acting on
the already-parsed JSON value of the inbound frame text (the
`serde_json::from_str` step is modelled by `parse_frame` below, which
feeds `Option.none` for text that does not parse as JSON). -/
def parse_event (text : Json) : Option LcuEvent :=
  text.as_array.bind fun arr =>
  arr.head?.bind fun first =>
  first.as_u64.bind fun opcode =>
  if opcode ≠ 8 then Option.none else
  (arr.get? 1).bind fun nameVal =>
  nameVal.as_str.bind fun _event_name =>
  (arr.get? 2).bind fun data =>
  (data.objGet "data").bind fun event_data =>
  (data.objGet "uri").bind fun uriVal =>
  uriVal.as_str.bind fun uri =>
  (data.objGet "eventType").bind fun etVal =>
  etVal.as_str.bind fun event_type =>
  some ⟨uri, event_type, event_data⟩

/-- Decoding of a raw inbound frame: `serde_json::from_str(text).ok()?`
is modelled by an `Option Json` input (`Option.none` when the text is not
valid JSON), then `parse_event` runs on the parsed value. -/
def parse_frame (parsed : Option Json) : Option LcuEvent :=
  parsed.bind parse_event

/-- Embeds `parse_gameflow_event` from `gameflow_monitor.rs`. -/
def parse_gameflow_event (event : LcuEvent) : Option GameflowPhase :=
  if event.uri = GAMEFLOW_PHASE then
    match event.data.as_str with
    | some phaseStr => some (GameflowPhase.fromString phaseStr)
    | Option.none => Option.none
  else
    Option.none

/-! ## error.rs : LeagueError -/

/-- Embeds enum `LeagueError` from `error.rs` (variants carrying foreign
error payloads carry their message string). -/
inductive LeagueError where
  | LcuNotFound (msg : String)
  | LcuConnectionFailed (msg : String)
  | HttpError (msg : String)
  | WebSocketError (msg : String)
  | IoError (msg : String)
  | JsonError (msg : String)
  | ParseError (msg : String)
  | LeagueNotRunning
  | Other (msg : String)
deriving DecidableEq, Repr

/-! ## lcu.rs : lockfile parsing and phase query -/

/-- Embeds struct `LcuConnection` from `lcu.rs` (the port is a `u16` in
the source; we carry the parsed value as a `Nat` bounded by `parseU16`). -/
structure LcuConnection where
  port : Nat
  auth_token : String
  protocol : String
deriving DecidableEq, Repr

/-- Splitting a character list at every colon, modelling Rust
`str::split(':')` (which yields one (possibly empty) field per
separator-delimited segment). -/
def splitOnColon : List Char → List (List Char)
  | [] => [[]]
  | c :: rest =>
    let r := splitOnColon rest
    if c = ':' then [] :: r
    else
      match r with
      | [] => [[c]]
      | g :: gs => (c :: g) :: gs

/-- Models Rust `str::trim`: strips leading and trailing whitespace. -/
def rustTrim (cs : List Char) : List Char :=
  ((cs.dropWhile Char.isWhitespace).reverse.dropWhile Char.isWhitespace).reverse

/-- The colon-separated fields of the (trimmed) lockfile content, as
strings. -/
def lockfileFields (content : String) : List String :=
  (splitOnColon (rustTrim content.data)).map fun cs => String.mk cs

/-- Models Rust `str::parse::<u16>()`: an optional leading plus sign,
then one or more ASCII digits, value at most 65535. -/
def parseU16 (s : String) : Option Nat :=
  let cs := match s.data with
            | '+' :: rest => rest
            | other => other
  if cs = [] then Option.none
  else if cs.all Char.isDigit then
    let n := cs.foldl (fun acc c => acc * 10 + (c.toNat - 48)) 0
    if n < 65536 then some n else Option.none
  else Option.none

/-- Embeds `LcuConnection::parse_lockfile_content` from `lcu.rs`:
trim, split on a colon, require at least five fields, parse field 3
(0-indexed 2) as the port, take field 4 as the credential and field 5 as
the protocol scheme. -/
def parse_lockfile_content (content : String) : Except LeagueError LcuConnection :=
  let parts := lockfileFields content
  if parts.length < 5 then
    .error (.Other ("Invalid lockfile format: expected 5 parts, got "
                    ++ toString parts.length))
  else
    match parseU16 (parts.getD 2 "") with
    | Option.none =>
      .error (.Other ("Invalid port in lockfile: " ++ parts.getD 2 ""))
    | some port =>
      .ok ⟨port, parts.getD 3 "", parts.getD 4 ""⟩

/-- An HTTP response as observed by `LcuClient::get_gameflow_phase`:
its status code, and its body as a JSON value. -/
structure HttpResponse where
  status : Nat
  body : Json

/-- Models `reqwest::StatusCode::is_success`: status in `200..=299`. -/
def statusIsSuccess (s : Nat) : Bool := 200 ≤ s && s < 300

/-- Embeds `LcuClient::get_gameflow_phase` from `lcu.rs`.  The network
send is modelled by its outcome: `Option.none` when the request itself
failed (mapped to `LeagueNotRunning` by the source), `some response`
otherwise.  A non-success status yields phase `None`; otherwise the body
must parse as a JSON string, which is decoded with `GameflowPhase::from`. -/
def get_gameflow_phase (response : Option HttpResponse) :
    Except LeagueError GameflowPhase :=
  match response with
  | Option.none => .error .LeagueNotRunning
  | some r =>
    if ¬ statusIsSuccess r.status then
      .ok .None
    else
      match r.body.as_str with
      | some phaseStr => .ok (GameflowPhase.fromString phaseStr)
      | Option.none => .error (.Other "Failed to parse gameflow phase")

/-! ## gameflow_monitor.rs : the orchestration loop as an interpreter

The async loop of `run_monitor_loop` / `try_websocket_mode` /
`try_polling_mode` is embedded as a deterministic interpreter over an
explicit schedule of environment events.  Each awaited point of the
source consumes the next schedule token; `tokio::select!` branch choice
is driven by which token the environment supplies.  The shutdown
broadcast channel is modelled by a `closed` flag: the source's `stop()`
sends the single `()` message and drops the sender, so once a wait point
has consumed the signal (token `.shutdown`), every later
`shutdown_rx.recv()` returns `Err(Closed)` immediately.  In a
`tokio::select!` an immediately-ready branch always wins over a timer
still pending (the poll interval is positive), so with `closed = true`
the polling select deterministically takes its shutdown branch, while
`try_recv().is_ok()` at the top of the loop is `false` once the message
has been consumed. -/

/-- Outcome of one polling tick's body: `LcuClient::new()` failing
(discovery/connection failure), `get_gameflow_phase()` failing (request
failure), or a successfully fetched phase. -/
inductive PollCallResult where
  | discoveryFailed
  | requestFailed
  | gotPhase (p : GameflowPhase)
deriving DecidableEq, Repr

/-- One environment event consumed by an awaited point of the monitor
loop. -/
inductive SchedToken where
  | wsConnect (ok : Bool)
  | wsRecv (e : Option LcuEvent)
  | pollTick (r : PollCallResult)
  | shutdown

/-- Observable actions of the monitor loop, in order of occurrence. -/
inductive Action where
  | connectWs (ok : Bool)
  | pollDiscover (r : PollCallResult)
  | emit (e : GameflowEvent)
  | sleepBackoff (secs : Nat)
  | shutdownObserved
deriving DecidableEq, Repr

/-- Exit reason of `try_websocket_mode`: `ok` for `Ok(())` (socket
closed, or shutdown observed), `connectFailed` for `Err(..)` from
`LcuWebSocket::connect`, `outOfSched` when the schedule is exhausted
mid-loop. -/
inductive WsExit where
  | ok
  | connectFailed
  | outOfSched
deriving DecidableEq, Repr

/-- Embeds enum `PollResult` from `gameflow_monitor.rs`, extended with
`outOfSched` for an exhausted schedule. -/
inductive PollResult where
  | Shutdown
  | ClientConnected
  | ClientDisconnected
  | outOfSched
deriving DecidableEq, Repr

/-- Embeds enum `MonitorMode` from `gameflow_monitor.rs`. -/
inductive MonitorMode where
  | WebSocket
  | Polling
deriving DecidableEq, Repr

/-- Result of a transport sub-loop: remaining schedule, monitor state,
shutdown-channel flag, emitted action trace, and exit reason. -/
structure WsOut where
  rest : List SchedToken
  state : MonState
  closed : Bool
  trace : List Action
  exit : WsExit

/-- Result of the polling sub-loop. -/
structure PollOut where
  rest : List SchedToken
  state : MonState
  closed : Bool
  trace : List Action
  exit : PollResult

/-- The `loop` body of `try_websocket_mode` after a successful connect:
a `tokio::select!` between `ws.recv()` and `shutdown_rx.recv()`.  A
received event whose resource is the gameflow phase goes through
`handle_phase_change`; `None` from `recv()` (socket closed) returns
`Ok(())`; the shutdown branch also returns `Ok(())`, consuming the
broadcast message. -/
def wsRecvLoop (sched : List SchedToken) (s : MonState) (closed : Bool) : WsOut :=
  match sched with
  | [] => ⟨[], s, closed, [], .outOfSched⟩
  | .wsRecv (some ev) :: rest =>
    match (match parse_gameflow_event ev with
           | some phase => handle_phase_change phase s
           | Option.none => (s, [])) with
    | (s', out) =>
      match wsRecvLoop rest s' closed with
      | ⟨rest', s'', c', tr, ex⟩ => ⟨rest', s'', c', out.map .emit ++ tr, ex⟩
  | .wsRecv Option.none :: rest => ⟨rest, s, closed, [], .ok⟩
  | .shutdown :: rest => ⟨rest, s, true, [.shutdownObserved], .ok⟩
  | _ :: _ => ⟨sched, s, closed, [], .outOfSched⟩

/-- Embeds `try_websocket_mode` from `gameflow_monitor.rs`: first the
`LcuWebSocket::connect()` await (its outcome is the `.wsConnect` token),
then the receive loop. -/
def try_websocket_mode (sched : List SchedToken) (s : MonState) (closed : Bool) : WsOut :=
  match sched with
  | [] => ⟨[], s, closed, [], .outOfSched⟩
  | .wsConnect false :: rest => ⟨rest, s, closed, [.connectWs false], .connectFailed⟩
  | .wsConnect true :: rest =>
    match wsRecvLoop rest s closed with
    | ⟨rest', s', c', tr, ex⟩ => ⟨rest', s', c', .connectWs true :: tr, ex⟩
  | _ :: _ => ⟨sched, s, closed, [], .outOfSched⟩

/-- Embeds `try_polling_mode` from `gameflow_monitor.rs`.  The local
`consecutive_failures` counter (initialized to `0` at entry in the
source) is threaded as the parameter `failures`.  Each loop iteration is
a `tokio::select!` between the poll-interval timer and
`shutdown_rx.recv()`; with `closed = true` the shutdown receive is
immediately ready while the (positive) timer is pending, so the shutdown
branch fires. -/
def try_polling_mode (sched : List SchedToken) (s : MonState) (closed : Bool)
    (failures : Nat) : PollOut :=
  if closed then ⟨sched, s, true, [.shutdownObserved], .Shutdown⟩
  else
    match sched with
    | [] => ⟨[], s, false, [], .outOfSched⟩
    | .shutdown :: rest => ⟨rest, s, true, [.shutdownObserved], .Shutdown⟩
    | .pollTick r :: rest =>
      match r with
      | .gotPhase p =>
        match handle_phase_change p s with
        | (s', out) =>
          ⟨rest, s', false,
           .pollDiscover (.gotPhase p) :: out.map .emit, .ClientConnected⟩
      | .requestFailed =>
        match try_polling_mode rest s false (failures + 1) with
        | ⟨rest', s', c', tr, ex⟩ =>
          ⟨rest', s', c', .pollDiscover .requestFailed :: tr, ex⟩
      | .discoveryFailed =>
        match (if s.lastLayout ≠ TargetLayout.None then
                 handle_phase_change GameflowPhase.None s
               else (s, [])) with
        | (s', out) =>
          if failures + 1 > 5 then
            ⟨rest, s', false,
             .pollDiscover .discoveryFailed :: out.map .emit,
             .ClientDisconnected⟩
          else
            match try_polling_mode rest s' false (failures + 1) with
            | ⟨rest', s'', c', tr, ex⟩ =>
              ⟨rest', s'', c',
               .pollDiscover .discoveryFailed :: out.map .emit ++ tr, ex⟩
    | _ :: _ => ⟨sched, s, false, [], .outOfSched⟩

/-- Embeds the backoff update `reconnect_delay = (reconnect_delay * 2).min(30 s)`
from `run_monitor_loop` (delays in whole seconds). -/
def nextReconnectDelay (d : Nat) : Nat := min (d * 2) 30

/-- Whether a pending shutdown message is at the head of the schedule
(the condition under which `shutdown_rx.try_recv().is_ok()` holds at the
top of the loop). -/
def headIsShutdown : List SchedToken → Bool
  | SchedToken.shutdown :: _ => true
  | _ => false

/-- Exit reason of the embedded `run_monitor_loop`. -/
inductive RunExit where
  | stopped
  | outOfSched
  | outOfFuel
deriving DecidableEq, Repr

/-- Embeds `run_monitor_loop` from `gameflow_monitor.rs`.  The mutable
locals `last_phase`/`last_layout` (`s`), `mode`, and `reconnect_delay`
(`delay`, seconds) are parameters; `fuel` bounds the number of outer
loop iterations.  Each iteration: the `try_recv` shutdown check (ready
only while the broadcast message is pending and unconsumed), then
`try_websocket_mode`, then `try_polling_mode`, then the match on the
poll result (sleep with doubling backoff on `ClientDisconnected`). -/
def run_monitor_loop (fuel : Nat) (sched : List SchedToken) (s : MonState)
    (mode : MonitorMode) (delay : Nat) (closed : Bool) :
    List Action × RunExit :=
  match fuel with
  | 0 => ([], .outOfFuel)
  | fuel' + 1 =>
    if !closed && headIsShutdown sched then
      ([.shutdownObserved], .stopped)
    else
      match try_websocket_mode sched s closed with
      | ⟨wrest, wstate, wclosed, wtrace, wexit⟩ =>
        match wexit with
        | .outOfSched => (wtrace, .outOfSched)
        | wexit =>
          let mode' :=
            match wexit with
            | .ok => MonitorMode.WebSocket
            | _ => if mode = MonitorMode.WebSocket then MonitorMode.Polling else mode
          let delay' := match wexit with | .ok => 1 | _ => delay
          match try_polling_mode wrest wstate wclosed 0 with
          | ⟨prest, pstate, pclosed, ptrace, pexit⟩ =>
            match pexit with
            | .outOfSched => (wtrace ++ ptrace, .outOfSched)
            | .Shutdown => (wtrace ++ ptrace, .stopped)
            | .ClientConnected =>
              match run_monitor_loop fuel' prest pstate mode' 1 pclosed with
              | (tr, ex) => (wtrace ++ ptrace ++ tr, ex)
            | .ClientDisconnected =>
              match run_monitor_loop fuel' prest pstate mode'
                      (nextReconnectDelay delay') pclosed with
              | (tr, ex) =>
                (wtrace ++ ptrace ++ Action.sleepBackoff delay' :: tr, ex)

/-- The monitor loop started from its initial state (`last_phase = None`,
`last_layout = None`, `mode = Polling`, `reconnect_delay = 1 s`, shutdown
channel open), as spawned by `GameflowMonitor::start`. -/
def run_monitor (fuel : Nat) (sched : List SchedToken) : List Action × RunExit :=
  run_monitor_loop fuel sched ⟨.None, .None⟩ .Polling 1 false

/-- Extracts the backoff sleep durations from an action trace. -/
def sleepsOf (tr : List Action) : List Nat :=
  tr.filterMap fun a => match a with | .sleepBackoff d => some d | _ => Option.none

/-! ## Helper lemmas about the phase-change handler -/

lemma hpc_same (p : GameflowPhase) (s : MonState) (h : p = s.lastPhase) :
    handle_phase_change p s = (s, []) := by
  simp [handle_phase_change, h]

lemma hpc_count (p : GameflowPhase) (s : MonState) :
    countPhaseChanged (handle_phase_change p s).2
      = if p = s.lastPhase then 0 else 1 := by
  by_cases h : p = s.lastPhase
  · rw [hpc_same p s h, if_pos h]
    rfl
  · rw [if_neg h]
    simp only [handle_phase_change, ne_eq, h, not_false_iff, if_true, if_pos]
    split <;> simp [countPhaseChanged, send_stage_change]

lemma hpc_lastPhase (p : GameflowPhase) (s : MonState) :
    (handle_phase_change p s).1.lastPhase = p := by
  by_cases h : p = s.lastPhase
  · rw [hpc_same p s h]
    exact h.symm
  · simp only [handle_phase_change, ne_eq, h, not_false_iff, if_true, if_pos]
    split <;> rfl

lemma countPhaseChanged_append (a b : List GameflowEvent) :
    countPhaseChanged (a ++ b) = countPhaseChanged a + countPhaseChanged b := by
  simp [countPhaseChanged, List.countP_append]

/-- C1: for every sequence of phases fed to the phase-change handler, a
`PhaseChanged` event is emitted at step `i` if and only if the phase fed
at step `i` differs from the stored last phase (the state after folding
the first `i` phases); the stored phase equals the fed phase afterwards;
and feeding the same phase twice in a row emits exactly one
`PhaseChanged` event (when it differs from the stored phase; zero
otherwise). -/
theorem claim_C1_phase_change_iff :
    ∀ (ps : List GameflowPhase) (s : MonState) (i : Nat) (p : GameflowPhase),
    ps.get? i = some p →
    countPhaseChanged (handle_phase_change p (runPhases (ps.take i) s).1).2
        = (if p = ((runPhases (ps.take i) s).1).lastPhase then 0 else 1)
      ∧ (handle_phase_change p (runPhases (ps.take i) s).1).1.lastPhase = p
      ∧ countPhaseChanged (runPhases [p, p] s).2
          = (if p = s.lastPhase then 0 else 1) := by
  intro ps s i p _hget
  refine ⟨hpc_count _ _, hpc_lastPhase _ _, ?_⟩
  show countPhaseChanged
      ((handle_phase_change p s).2 ++
        ((handle_phase_change p (handle_phase_change p s).1).2 ++ [])) = _
  rw [hpc_same p (handle_phase_change p s).1 (hpc_lastPhase p s).symm]
  simp [countPhaseChanged_append, hpc_count]

/-- C1 witness: concrete instance of the theorem at the sequence
`[Lobby]`, index 0, from the initial monitor state. -/
theorem claim_C1_phase_change_iff_witness :
    ([GameflowPhase.Lobby].get? 0 = some GameflowPhase.Lobby)
      ∧ countPhaseChanged
          (handle_phase_change GameflowPhase.Lobby
            (runPhases ([GameflowPhase.Lobby].take 0) ⟨.None, .None⟩).1).2
          = (if GameflowPhase.Lobby
                = ((runPhases ([GameflowPhase.Lobby].take 0) ⟨.None, .None⟩).1).lastPhase
             then 0 else 1) :=
  ⟨rfl, (claim_C1_phase_change_iff [GameflowPhase.Lobby] ⟨.None, .None⟩ 0
          GameflowPhase.Lobby rfl).1⟩

/-! ## C2: every StageChanged immediately follows its PhaseChanged -/

/-- Event lists in which every `StageChanged` event is immediately
preceded by a `PhaseChanged` event of the same phase transition. -/
inductive StagePaired : List GameflowEvent → Prop where
  | nil : StagePaired []
  | pc (e : GameflowChangeEvent) {l : List GameflowEvent} :
      StagePaired l → StagePaired (.PhaseChanged e :: l)
  | pcsc (e : GameflowChangeEvent) (sc : StageChangeEvent) {l : List GameflowEvent} :
      sc.phase = e.phase → StagePaired l →
      StagePaired (.PhaseChanged e :: .StageChanged sc :: l)

lemma hpc_shape (p : GameflowPhase) (s : MonState) :
    (handle_phase_change p s).2 = []
    ∨ (∃ e, (handle_phase_change p s).2 = [.PhaseChanged e])
    ∨ (∃ e sc, (handle_phase_change p s).2 = [.PhaseChanged e, .StageChanged sc]
         ∧ sc.phase = e.phase) := by
  by_cases h : p = s.lastPhase
  · exact Or.inl (by simp [hpc_same p s h])
  · simp only [handle_phase_change, ne_eq, h, not_false_iff, if_true, if_pos]
    split
    · refine Or.inr (Or.inr ⟨_, _, rfl, ?_⟩)
      simp [send_stage_change]
    · exact Or.inr (Or.inl ⟨_, rfl⟩)

lemma stagePaired_step (p : GameflowPhase) (s : MonState)
    {l : List GameflowEvent} (hl : StagePaired l) :
    StagePaired ((handle_phase_change p s).2 ++ l) := by
  rcases hpc_shape p s with h | ⟨e, h⟩ | ⟨e, sc, h, hphase⟩ <;> rw [h]
  · exact hl
  · exact .pc e hl
  · exact .pcsc e sc hphase hl

lemma stagePaired_run (ps : List GameflowPhase) (s : MonState) :
    StagePaired (runPhases ps s).2 := by
  induction ps generalizing s with
  | nil => exact .nil
  | cons p rest ih =>
    show StagePaired ((handle_phase_change p s).2 ++ _)
    exact stagePaired_step p s (ih _)

lemma stagePaired_get {l : List GameflowEvent} (h : StagePaired l) :
    ∀ (i : Nat) (sc : StageChangeEvent),
    l.get? i = some (.StageChanged sc) →
    ∃ (j : Nat) (e : GameflowChangeEvent),
      i = j + 1 ∧ l.get? j = some (.PhaseChanged e) ∧ e.phase = sc.phase := by
  induction h with
  | nil => intro i sc hg; simp at hg
  | pc e _ ih =>
    intro i sc hg
    match i with
    | 0 => simp at hg
    | k + 1 =>
      obtain ⟨j, e', hj, hget, hph⟩ := ih k sc hg
      exact ⟨j + 1, e', by omega, hget, hph⟩
  | pcsc e sc' hphase _ ih =>
    intro i sc hg
    match i with
    | 0 => simp at hg
    | 1 =>
      simp only [List.get?] at hg
      obtain rfl : sc' = sc := by injection hg with h'; injection h'
      exact ⟨0, e, rfl, rfl, hphase.symm⟩
    | k + 2 =>
      obtain ⟨j, e', hj, hget, hph⟩ := ih k sc hg
      exact ⟨j + 2, e', by omega, hget, hph⟩

/-- C2: in the event trace produced by feeding any sequence of phases
through the phase-change handler, every `StageChanged` (layout-changed)
event is immediately preceded by the `PhaseChanged` event of the same
transition (same triggering phase), and hence never interleaved with a
notification from a different transition. -/
theorem claim_C2_stage_follows_phase :
    ∀ (ps : List GameflowPhase) (s : MonState) (i : Nat) (sc : StageChangeEvent),
    (runPhases ps s).2.get? i = some (.StageChanged sc) →
    ∃ (j : Nat) (e : GameflowChangeEvent),
      i = j + 1 ∧ (runPhases ps s).2.get? j = some (.PhaseChanged e)
        ∧ e.phase = sc.phase := by
  intro ps s i sc hg
  exact stagePaired_get (stagePaired_run ps s) i sc hg

/-- C2 witness: concrete instance at the one-phase sequence `[Lobby]`
from the initial monitor state, whose trace is
`[PhaseChanged, StageChanged]`. -/
theorem claim_C2_stage_follows_phase_witness :
    ((runPhases [GameflowPhase.Lobby] ⟨.None, .None⟩).2.get? 1
        = some (.StageChanged ⟨"client_centered", "Lobby", "Client phase: In Lobby"⟩))
      ∧ ∃ (j : Nat) (e : GameflowChangeEvent),
          1 = j + 1
          ∧ (runPhases [GameflowPhase.Lobby] ⟨.None, .None⟩).2.get? j
              = some (.PhaseChanged e)
          ∧ e.phase = StageChangeEvent.phase
              ⟨"client_centered", "Lobby", "Client phase: In Lobby"⟩ :=
  ⟨rfl, claim_C2_stage_follows_phase [GameflowPhase.Lobby] ⟨.None, .None⟩ 1
    ⟨"client_centered", "Lobby", "Client phase: In Lobby"⟩ rfl⟩

/-! ## C6 and C10: the phase-to-layout function -/

/-- C6: `TargetLayout::from_phase` is total and pure: the in-game phases
map to `GameFullscreen`, the in-client phases to `ClientCentered`, and
exactly the remaining phases (`None`, `FailedToLaunch`,
`TerminatedInError`, `CheckedIntoTournament`) to `None`. -/
theorem claim_C6_from_phase_table :
    ∀ p : GameflowPhase,
      (TargetLayout.from_phase p = .GameFullscreen
          ↔ p ∈ [GameflowPhase.InProgress, .Reconnect, .GameStart])
      ∧ (TargetLayout.from_phase p = .ClientCentered
          ↔ p ∈ [GameflowPhase.Lobby, .Matchmaking, .ReadyCheck, .ChampSelect,
                 .WaitingForStats, .PreEndOfGame, .EndOfGame])
      ∧ (TargetLayout.from_phase p = .None
          ↔ p ∈ [GameflowPhase.None, .FailedToLaunch, .TerminatedInError,
                 .CheckedIntoTournament]) := by
  intro p
  cases p <;> exact ⟨by decide, by decide, by decide⟩

/-- C10: no phase is simultaneously in-game and in-client, so the layout
derived from a phase is unambiguous. -/
theorem claim_C10_in_game_client_disjoint :
    ∀ p : GameflowPhase, (p.is_in_game && p.is_in_client) = false := by
  intro p
  cases p <;> decide

/-! ## C8: phase query error-handling -/

lemma fromString_unknown (s : String) (h : s ∉ knownPhaseStrings) :
    GameflowPhase.fromString s = .None := by
  simp only [knownPhaseStrings, List.mem_cons, List.not_mem_nil, or_false, not_or] at h
  obtain ⟨h1, h2, h3, h4, h5, h6, h7, h8, h9, h10, h11, h12, h13, h14⟩ := h
  simp [GameflowPhase.fromString, h1, h2, h3, h4, h5, h6, h7, h8, h9, h10,
        h11, h12, h13, h14]

/-- C8: `get_gameflow_phase` returns phase `None` (not an error) on any
non-success HTTP status; and when the body is a JSON string outside the
fourteen known wire names the result is phase `None`, never an error,
because `GameflowPhase::from` maps every unknown string to `None`. -/
theorem claim_C8_phase_query_never_errors :
    (∀ r : HttpResponse, statusIsSuccess r.status = false →
        get_gameflow_phase (some r) = .ok .None)
    ∧ (∀ (r : HttpResponse) (s : String), r.body = Json.str s →
        s ∉ knownPhaseStrings → get_gameflow_phase (some r) = .ok .None)
    ∧ (∀ s : String, s ∉ knownPhaseStrings → GameflowPhase.fromString s = .None) := by
  refine ⟨?_, ?_, fromString_unknown⟩
  · intro r h
    simp [get_gameflow_phase, h]
  · intro r s hb h
    by_cases hs : statusIsSuccess r.status
    · simp [get_gameflow_phase, hs, hb, Json.as_str, fromString_unknown s h]
    · simp [get_gameflow_phase, hs]

/-- C8 witness: a 404 response yields phase `None`, and a 200 response
whose body is the unknown string "SomeFutureState" also yields phase
`None`. -/
theorem claim_C8_phase_query_never_errors_witness :
    (statusIsSuccess 404 = false
      ∧ get_gameflow_phase (some ⟨404, Json.str "InProgress"⟩) = .ok .None)
    ∧ ("SomeFutureState" ∉ knownPhaseStrings
      ∧ get_gameflow_phase (some ⟨200, Json.str "SomeFutureState"⟩) = .ok .None) :=
  ⟨⟨by decide,
     claim_C8_phase_query_never_errors.1 ⟨404, Json.str "InProgress"⟩ (by decide)⟩,
   ⟨by decide,
     claim_C8_phase_query_never_errors.2.1 ⟨200, Json.str "SomeFutureState"⟩
       "SomeFutureState" rfl (by decide)⟩⟩

/-! ## C9: lockfile parsing -/

/-- C9: lockfile content whose colon-split yields fewer than five fields
fails with the malformed-lockfile error; with at least five fields and a
numerically parsable field 3, the result carries that port, field 4 as
the credential and field 5 as the protocol scheme. -/
theorem claim_C9_lockfile_fields :
    (∀ content : String, (lockfileFields content).length < 5 →
        parse_lockfile_content content
          = .error (.Other ("Invalid lockfile format: expected 5 parts, got "
                            ++ toString (lockfileFields content).length)))
    ∧ (∀ (content : String) (p : Nat), 5 ≤ (lockfileFields content).length →
        parseU16 ((lockfileFields content).getD 2 "") = some p →
        parse_lockfile_content content
          = .ok ⟨p, (lockfileFields content).getD 3 "",
                 (lockfileFields content).getD 4 ""⟩) := by
  constructor
  · intro c h
    simp [parse_lockfile_content, h]
  · intro c p h5 hp
    have h : ¬ (lockfileFields c).length < 5 := by omega
    simp only [List.getD_eq_getElem?_getD] at hp
    simp [parse_lockfile_content, h, hp]

/-- C9 witness: a one-field content is rejected as malformed, and a
well-formed five-field content parses into port 54321, the credential
field, and the scheme field. -/
theorem claim_C9_lockfile_fields_witness :
    ((lockfileFields "garbage").length < 5
      ∧ parse_lockfile_content "garbage"
          = .error (.Other ("Invalid lockfile format: expected 5 parts, got "
                            ++ toString (lockfileFields "garbage").length)))
    ∧ (5 ≤ (lockfileFields "LeagueClient:9999:54321:secret-token:https").length
      ∧ parseU16 ((lockfileFields "LeagueClient:9999:54321:secret-token:https").getD 2 "")
          = some 54321
      ∧ parse_lockfile_content "LeagueClient:9999:54321:secret-token:https"
          = .ok ⟨54321, "secret-token", "https"⟩) := by
  refine ⟨⟨by decide, claim_C9_lockfile_fields.1 "garbage" (by decide)⟩,
          ⟨by decide, by decide, ?_⟩⟩
  have h := claim_C9_lockfile_fields.2 "LeagueClient:9999:54321:secret-token:https"
    54321 (by decide) (by decide)
  rw [h]
  rfl

/-! ## C7: push-frame decoding -/

lemma Json.as_array_eq_some {j : Json} {xs : List Json} :
    j.as_array = some xs ↔ j = .arr xs := by
  cases j <;> simp [Json.as_array]

lemma Json.as_str_eq_some {j : Json} {s : String} :
    j.as_str = some s ↔ j = .str s := by
  cases j <;> simp [Json.as_str]

/-- The example push frame of the spec,
`[8,"OnJsonApiEvent",{"data":"InProgress","eventType":"Update","uri":"/lol-gameflow/v1/gameflow-phase"}]`,
as a parsed JSON value. -/
def exampleFrame : Json :=
  .arr [.num 8, .str "OnJsonApiEvent",
        .obj [("data", .str "InProgress"), ("eventType", .str "Update"),
              ("uri", .str "/lol-gameflow/v1/gameflow-phase")]]

/-- C7: the example frame decodes to the expected notification; any
frame that decodes to a notification is a JSON array whose first element
is the number 8 and whose third element carries the `uri`, `eventType`
and `data` fields found in the notification; a frame whose first element
is a number other than 8 yields no notification; and frame text that is
not valid JSON yields no notification. -/
theorem claim_C7_push_frame_decoding :
    (parse_event exampleFrame
        = some ⟨"/lol-gameflow/v1/gameflow-phase", "Update", Json.str "InProgress"⟩)
    ∧ (∀ (j : Json) (ev : LcuEvent), parse_event j = some ev →
        ∃ (xs : List Json) (first d : Json),
          j = .arr xs ∧ xs.head? = some first ∧ first.as_u64 = some 8
          ∧ xs.get? 2 = some d
          ∧ d.objGet "uri" = some (.str ev.uri)
          ∧ d.objGet "eventType" = some (.str ev.event_type)
          ∧ d.objGet "data" = some ev.data)
    ∧ (∀ (xs : List Json) (first : Json) (n : Nat),
        xs.head? = some first → first.as_u64 = some n → n ≠ 8 →
        parse_event (.arr xs) = Option.none)
    ∧ parse_frame Option.none = Option.none := by
  refine ⟨rfl, ?_, ?_, rfl⟩
  · intro j ev h
    simp only [parse_event, Option.bind_eq_some] at h
    obtain ⟨xs, harr, first, hfirst, opcode, hop, h⟩ := h
    by_cases h8 : opcode = 8
    · subst h8
      rw [if_neg (by simp)] at h
      simp only [Option.bind_eq_some] at h
      obtain ⟨nameVal, _hname, ename, _hename, d, hd, edata, hedata,
              uriVal, huriV, uri, huriS, etVal, hetV, etype, hetS, heq⟩ := h
      obtain rfl := Option.some.inj heq
      refine ⟨xs, first, d, Json.as_array_eq_some.mp harr, hfirst, hop, hd, ?_, ?_, hedata⟩
      · rw [huriV, Json.as_str_eq_some.mp huriS]
      · rw [hetV, Json.as_str_eq_some.mp hetS]
    · rw [if_pos h8] at h
      exact absurd h (by simp)
  · intro xs first n hfirst hn hne
    simp [parse_event, Json.as_array, hfirst, hn, hne]

/-- C7 witness: applies the shape direction of the theorem to the
example frame, and the wrong-opcode direction to the frame `[3]`. -/
theorem claim_C7_push_frame_decoding_witness :
    (∃ (xs : List Json) (first d : Json),
        exampleFrame = .arr xs ∧ xs.head? = some first ∧ first.as_u64 = some 8
        ∧ xs.get? 2 = some d
        ∧ d.objGet "uri" = some (.str "/lol-gameflow/v1/gameflow-phase")
        ∧ d.objGet "eventType" = some (.str "Update")
        ∧ d.objGet "data" = some (.str "InProgress"))
    ∧ parse_event (.arr [.num 3]) = Option.none :=
  ⟨claim_C7_push_frame_decoding.2.1 exampleFrame
     ⟨"/lol-gameflow/v1/gameflow-phase", "Update", Json.str "InProgress"⟩ rfl,
   claim_C7_push_frame_decoding.2.2.1 [.num 3] (.num 3) 3 rfl rfl (by decide)⟩

/-! ## C4 and C5: polling-failure behaviour -/

/-- The state/event pair produced by the discovery-failure branch of the
polling loop (`handle_phase_change(None)` when a layout was present,
nothing otherwise). -/
def pollNoneStep (s : MonState) : MonState × List GameflowEvent :=
  if s.lastLayout ≠ TargetLayout.None then
    handle_phase_change GameflowPhase.None s
  else (s, [])

lemma try_polling_discoveryFailed_step (rest : List SchedToken) (s : MonState)
    (n : Nat) :
    try_polling_mode (SchedToken.pollTick .discoveryFailed :: rest) s false n
      = (if n + 1 > 5 then
           ⟨rest, (pollNoneStep s).1, false,
            .pollDiscover .discoveryFailed :: (pollNoneStep s).2.map .emit,
            .ClientDisconnected⟩
         else
           ⟨(try_polling_mode rest (pollNoneStep s).1 false (n + 1)).rest,
            (try_polling_mode rest (pollNoneStep s).1 false (n + 1)).state,
            (try_polling_mode rest (pollNoneStep s).1 false (n + 1)).closed,
            .pollDiscover .discoveryFailed :: (pollNoneStep s).2.map .emit
              ++ (try_polling_mode rest (pollNoneStep s).1 false (n + 1)).trace,
            (try_polling_mode rest (pollNoneStep s).1 false (n + 1)).exit⟩) := rfl

lemma poll_disconnect_after (k : Nat) :
    ∀ (n : Nat) (rest : List SchedToken) (s : MonState),
    1 ≤ k → 6 ≤ n + k →
    (try_polling_mode
        (List.replicate k (SchedToken.pollTick .discoveryFailed) ++ rest)
        s false n).exit
      = PollResult.ClientDisconnected := by
  induction k with
  | zero => intro n rest s h1 _; omega
  | succ k ih =>
    intro n rest s _ h6
    rw [List.replicate_succ, List.cons_append, try_polling_discoveryFailed_step]
    by_cases hgt : n + 1 > 5
    · rw [if_pos hgt]
    · rw [if_neg hgt]
      exact ih (n + 1) rest (pollNoneStep s).1 (by omega) (by omega)

/-- C4 counterexample: seven consecutive request failures (the League
client was discovered, but every `get_gameflow_phase` call failed) do
not make the polling sub-loop exit: the sub-loop consumes all seven poll
ticks and is still polling (no backoff sleep, no
`ClientDisconnected`) when the schedule runs out, contradicting the
claim that more than 5 consecutive failures of either kind exit the
sub-loop. -/
theorem claim_C4_counterexample_request_failures :
    try_polling_mode (List.replicate 7 (SchedToken.pollTick .requestFailed))
        ⟨.None, .None⟩ false 0
      = ⟨[], ⟨.None, .None⟩, false,
         List.replicate 7 (Action.pollDiscover .requestFailed),
         PollResult.outOfSched⟩ := rfl

lemma poll_request_failures_no_exit (k : Nat) :
    ∀ (n : Nat) (s : MonState),
    (try_polling_mode (List.replicate k (SchedToken.pollTick .requestFailed))
        s false n).exit
      = PollResult.outOfSched := by
  induction k with
  | zero => intro n s; rfl
  | succ k ih =>
    intro n s
    rw [List.replicate_succ]
    have hstep :
        try_polling_mode
            (SchedToken.pollTick .requestFailed
              :: List.replicate k (SchedToken.pollTick .requestFailed)) s false n
          = ⟨(try_polling_mode
                (List.replicate k (SchedToken.pollTick .requestFailed)) s false (n + 1)).rest,
             (try_polling_mode
                (List.replicate k (SchedToken.pollTick .requestFailed)) s false (n + 1)).state,
             (try_polling_mode
                (List.replicate k (SchedToken.pollTick .requestFailed)) s false (n + 1)).closed,
             .pollDiscover .requestFailed
               :: (try_polling_mode
                    (List.replicate k (SchedToken.pollTick .requestFailed)) s false (n + 1)).trace,
             (try_polling_mode
                (List.replicate k (SchedToken.pollTick .requestFailed)) s false (n + 1)).exit⟩ := rfl
    rw [hstep]
    exact ih (n + 1) s

/-- C4 amended: after more than 5 consecutive failures the polling
sub-loop exits with `ClientDisconnected` provided the failure streak
ends in connection/discovery failures (the >5 check fires only in the
discovery-failure branch; conjunct 5 shows a streak consisting solely of
request failures, of any length and from any failure count, never
exits); the monitor then sleeps for the reconnect backoff, which starts
at 1 second, doubles per consecutive disconnected period and is capped
at 30 (1, 2, 4, 8, 16, 30, 30, ...), and resets to 1 second as soon as
any successful call is observed - poll success (conjunct 4) or push
success: conjunct 6 shows that after a WebSocket session that ends with
a clean socket close (the `Ok(())` arm that re-arms `reconnect_delay` to
1 s), the next disconnected-period sleep is 1 second whatever the
previously escalated delay and mode were, and conjunct 7 replays the
1, 2, then reset-to-1 sleep pattern with the reset produced by a push
session instead of a poll success. -/
theorem claim_C4_amended_backoff :
    (∀ (k n : Nat) (rest : List SchedToken) (s : MonState),
      1 ≤ k → 6 ≤ n + k →
      (try_polling_mode
          (List.replicate k (SchedToken.pollTick .discoveryFailed) ++ rest)
          s false n).exit
        = PollResult.ClientDisconnected)
    ∧ (∀ n : Nat, nextReconnectDelay^[n] 1 = min (2 ^ n) 30)
    ∧ sleepsOf (run_monitor 20 ((List.replicate 7
        (SchedToken.wsConnect false
          :: List.replicate 6 (SchedToken.pollTick .discoveryFailed))).flatten)).1
        = [1, 2, 4, 8, 16, 30, 30]
    ∧ sleepsOf (run_monitor 20 (
        (SchedToken.wsConnect false
          :: List.replicate 6 (SchedToken.pollTick .discoveryFailed))
        ++ (SchedToken.wsConnect false
          :: List.replicate 6 (SchedToken.pollTick .discoveryFailed))
        ++ [SchedToken.wsConnect false, SchedToken.pollTick (.gotPhase .None)]
        ++ (SchedToken.wsConnect false
          :: List.replicate 6 (SchedToken.pollTick .discoveryFailed)))).1
        = [1, 2, 1]
    ∧ (∀ (k n : Nat) (s : MonState),
        (try_polling_mode (List.replicate k (SchedToken.pollTick .requestFailed))
            s false n).exit
          = PollResult.outOfSched)
    ∧ (∀ (delay : Nat) (mode : MonitorMode),
        sleepsOf (run_monitor_loop 3
          (SchedToken.wsConnect true :: SchedToken.wsRecv Option.none
            :: List.replicate 6 (SchedToken.pollTick .discoveryFailed))
          ⟨.None, .None⟩ mode delay false).1
          = [1])
    ∧ sleepsOf (run_monitor 20 (
        (SchedToken.wsConnect false
          :: List.replicate 6 (SchedToken.pollTick .discoveryFailed))
        ++ (SchedToken.wsConnect false
          :: List.replicate 6 (SchedToken.pollTick .discoveryFailed))
        ++ (SchedToken.wsConnect true :: SchedToken.wsRecv Option.none
          :: List.replicate 6 (SchedToken.pollTick .discoveryFailed)))).1
        = [1, 2, 1] := by
  refine ⟨fun k n rest s h1 h6 => poll_disconnect_after k n rest s h1 h6, ?_, ?_, ?_,
          fun k n s => poll_request_failures_no_exit k n s,
          fun delay mode => rfl, rfl⟩
  · intro n
    induction n with
    | zero => rfl
    | succ n ih =>
      rw [Function.iterate_succ_apply', ih, nextReconnectDelay]
      rcases le_or_lt (2 ^ n) 30 with h | h
      · have : 2 ^ (n + 1) = 2 ^ n * 2 := by ring
        omega
      · have h2 : 2 ^ (n + 1) > 30 := by
          have : 2 ^ (n + 1) = 2 ^ n * 2 := by ring
          omega
        omega
  · rfl
  · rfl

/-- C4 amended witness: six consecutive discovery failures from a fresh
sub-loop entry exit with `ClientDisconnected`. -/
theorem claim_C4_amended_backoff_witness :
    (1 ≤ 6 ∧ 6 ≤ 0 + 6)
    ∧ (try_polling_mode
        (List.replicate 6 (SchedToken.pollTick .discoveryFailed) ++ [])
        ⟨.None, .None⟩ false 0).exit = PollResult.ClientDisconnected :=
  ⟨⟨by decide, by decide⟩,
   claim_C4_amended_backoff.1 6 0 [] ⟨.None, .None⟩ (by decide) (by decide)⟩

/-- C5 counterexample: with a previously-known layout present
(`GameFullscreen`), a first consecutive failure of the *request* kind
(client discovered, `get_gameflow_phase` failed) routes nothing through
the phase-change handler: the trace records the failed poll and no
emitted event, contradicting the claim that the first failure of either
kind emits the phase-change to `None`. -/
theorem claim_C5_counterexample_request_failure :
    try_polling_mode [SchedToken.pollTick .requestFailed]
        ⟨.InProgress, .GameFullscreen⟩ false 0
      = ⟨[], ⟨.InProgress, .GameFullscreen⟩, false,
         [Action.pollDiscover .requestFailed], PollResult.outOfSched⟩ := rfl

/-- C5 amended: on a connection/discovery failure (request failures do
not trigger this), whenever the previously-known layout was not `None`,
a phase change to `GameflowPhase::None` is routed through the
phase-change handler, which emits the `PhaseChanged`-to-`None` event
(and the accompanying stage change to no layout). -/
theorem claim_C5_amended_discovery_failure_emits_none :
    ∀ (s : MonState) (rest : List SchedToken),
    s.lastLayout = TargetLayout.from_phase s.lastPhase →
    s.lastLayout ≠ TargetLayout.None →
    ∃ tr,
      (try_polling_mode (SchedToken.pollTick .discoveryFailed :: rest) s false 0).trace
        = Action.pollDiscover .discoveryFailed
          :: Action.emit (.PhaseChanged ⟨"None", "Not Running", false, false⟩)
          :: Action.emit (send_stage_change .None .None)
          :: tr := by
  intro s rest hinv hne
  have hp : GameflowPhase.None ≠ s.lastPhase := by
    intro h
    apply hne
    rw [hinv, ← h]
    rfl
  have hlay : TargetLayout.from_phase GameflowPhase.None ≠ s.lastLayout := by
    intro h
    exact hne h.symm
  have hstep : pollNoneStep s
      = (⟨.None, .None⟩,
         [.PhaseChanged ⟨"None", "Not Running", false, false⟩,
          send_stage_change .None .None]) := by
    unfold pollNoneStep
    rw [if_pos hne]
    unfold handle_phase_change
    rw [if_pos hp]
    dsimp only
    rw [if_pos hlay]
    rfl
  rw [try_polling_discoveryFailed_step, if_neg (by omega)]
  refine ⟨(try_polling_mode rest (⟨.None, .None⟩ : MonState) false 1).trace, ?_⟩
  simp only [hstep]
  rfl

/-- C5 amended witness: concrete instance from the in-game state. -/
theorem claim_C5_amended_discovery_failure_emits_none_witness :
    ∃ tr,
      (try_polling_mode [SchedToken.pollTick .discoveryFailed]
          ⟨.InProgress, .GameFullscreen⟩ false 0).trace
        = Action.pollDiscover .discoveryFailed
          :: Action.emit (.PhaseChanged ⟨"None", "Not Running", false, false⟩)
          :: Action.emit (send_stage_change .None .None)
          :: tr :=
  claim_C5_amended_discovery_failure_emits_none
    ⟨.InProgress, .GameFullscreen⟩ [] rfl (by decide)

/-! ## C3: shutdown ends the loop -/

/-- Whether an action is the observation of the shutdown signal. -/
def isMarker : Action → Bool
  | .shutdownObserved => true
  | _ => false

/-- A trace with no shutdown observation. -/
def markerFree (tr : List Action) : Bool := tr.all fun a => !isMarker a

/-- Holds when every action strictly after the first shutdown
observation is itself a shutdown observation: once the shutdown signal
is observed, no connection attempt, poll, event emission or backoff
sleep follows. -/
def tailMarkers : List Action → Bool
  | [] => true
  | a :: rest => if isMarker a then rest.all isMarker else tailMarkers rest

/-- The state/event pair the WebSocket loop derives from one received
event (phase events go through the handler, others are ignored). -/
def wsStep (ev : LcuEvent) (s : MonState) : MonState × List GameflowEvent :=
  match parse_gameflow_event ev with
  | some phase => handle_phase_change phase s
  | Option.none => (s, [])

lemma markerFree_emits (es : List GameflowEvent) :
    markerFree (es.map Action.emit) = true := by
  simp [markerFree, isMarker]

lemma markerFree_cons {a : Action} {t : List Action} (ha : isMarker a = false)
    (ht : markerFree t = true) : markerFree (a :: t) = true := by
  simp [markerFree, ha]
  simpa [markerFree] using ht

lemma markerFree_append {a b : List Action} (ha : markerFree a = true)
    (hb : markerFree b = true) : markerFree (a ++ b) = true := by
  simp only [markerFree, List.all_append, Bool.and_eq_true]
  exact ⟨ha, hb⟩

lemma tailMarkers_of_markerFree : ∀ {t : List Action},
    markerFree t = true → tailMarkers t = true := by
  intro t
  induction t with
  | nil => intro _; rfl
  | cons a t ih =>
    intro h
    simp only [markerFree, List.all_cons, Bool.and_eq_true, Bool.not_eq_true'] at h
    simp only [tailMarkers, h.1, if_false]
    exact ih h.2

lemma tailMarkers_append {a : List Action} (b : List Action)
    (h : markerFree a = true) : tailMarkers (a ++ b) = tailMarkers b := by
  induction a with
  | nil => rfl
  | cons x xs ih =>
    simp only [markerFree, List.all_cons, Bool.and_eq_true, Bool.not_eq_true'] at h
    simp only [List.cons_append, tailMarkers, h.1, if_false]
    exact ih h.2

lemma tailMarkers_snoc_marker {t : List Action} (h : markerFree t = true) :
    tailMarkers (t ++ [Action.shutdownObserved]) = true := by
  rw [tailMarkers_append _ h]
  rfl

lemma tailMarkers_snoc_two {t : List Action} (h : markerFree t = true) :
    tailMarkers ((t ++ [Action.shutdownObserved]) ++ [Action.shutdownObserved]) = true := by
  rw [List.append_assoc, tailMarkers_append _ h]
  rfl

lemma not_mem_of_markerFree {t : List Action} (h : markerFree t = true) :
    Action.shutdownObserved ∉ t := by
  intro hmem
  have := List.all_eq_true.mp h _ hmem
  simp [isMarker] at this

/-- Behaviour of the WebSocket receive loop started with the shutdown
channel open: either it never observes shutdown (trace marker-free,
channel still open), or its trace ends in the single shutdown
observation, the channel is now closed-and-drained, and it returned
`Ok(())`. -/
lemma wsRecvLoop_spec (sched : List SchedToken) :
    ∀ s : MonState,
    (markerFree (wsRecvLoop sched s false).trace = true
      ∧ (wsRecvLoop sched s false).closed = false)
    ∨ (∃ t, (wsRecvLoop sched s false).trace = t ++ [Action.shutdownObserved]
        ∧ markerFree t = true ∧ (wsRecvLoop sched s false).closed = true
        ∧ (wsRecvLoop sched s false).exit = .ok) := by
  induction sched with
  | nil => intro s; exact Or.inl ⟨rfl, rfl⟩
  | cons tok rest ih =>
    intro s
    match tok with
    | .wsConnect _ => exact Or.inl ⟨rfl, rfl⟩
    | .pollTick _ => exact Or.inl ⟨rfl, rfl⟩
    | .shutdown => exact Or.inr ⟨[], rfl, rfl, rfl, rfl⟩
    | .wsRecv Option.none => exact Or.inl ⟨rfl, rfl⟩
    | .wsRecv (some ev) =>
      have hstep :
          wsRecvLoop (SchedToken.wsRecv (some ev) :: rest) s false
          = ⟨(wsRecvLoop rest (wsStep ev s).1 false).rest,
             (wsRecvLoop rest (wsStep ev s).1 false).state,
             (wsRecvLoop rest (wsStep ev s).1 false).closed,
             (wsStep ev s).2.map .emit ++ (wsRecvLoop rest (wsStep ev s).1 false).trace,
             (wsRecvLoop rest (wsStep ev s).1 false).exit⟩ := rfl
      rw [hstep]
      rcases ih (wsStep ev s).1 with ⟨h1, h2⟩ | ⟨t, ht, hmf, hc, hex⟩
      · exact Or.inl ⟨markerFree_append (markerFree_emits (wsStep ev s).2) h1, h2⟩
      · refine Or.inr ⟨(wsStep ev s).2.map .emit ++ t, ?_,
          markerFree_append (markerFree_emits (wsStep ev s).2) hmf, hc, hex⟩
        rw [ht, List.append_assoc]

/-- Behaviour of `try_websocket_mode` started with the shutdown channel
open. -/
lemma try_websocket_mode_spec (sched : List SchedToken) (s : MonState) :
    (markerFree (try_websocket_mode sched s false).trace = true
      ∧ (try_websocket_mode sched s false).closed = false)
    ∨ (∃ t, (try_websocket_mode sched s false).trace = t ++ [Action.shutdownObserved]
        ∧ markerFree t = true ∧ (try_websocket_mode sched s false).closed = true
        ∧ (try_websocket_mode sched s false).exit = .ok) := by
  match sched with
  | [] => exact Or.inl ⟨rfl, rfl⟩
  | .wsRecv _ :: rest => exact Or.inl ⟨rfl, rfl⟩
  | .pollTick _ :: rest => exact Or.inl ⟨rfl, rfl⟩
  | .shutdown :: rest => exact Or.inl ⟨rfl, rfl⟩
  | .wsConnect false :: rest => exact Or.inl ⟨by rfl, rfl⟩
  | .wsConnect true :: rest =>
    have hstep :
        try_websocket_mode (SchedToken.wsConnect true :: rest) s false
        = ⟨(wsRecvLoop rest s false).rest, (wsRecvLoop rest s false).state,
           (wsRecvLoop rest s false).closed,
           .connectWs true :: (wsRecvLoop rest s false).trace,
           (wsRecvLoop rest s false).exit⟩ := rfl
    rw [hstep]
    rcases wsRecvLoop_spec rest s with ⟨h1, h2⟩ | ⟨t, ht, hmf, hc, hex⟩
    · exact Or.inl ⟨markerFree_cons rfl h1, h2⟩
    · refine Or.inr ⟨.connectWs true :: t, ?_, markerFree_cons rfl hmf, hc, hex⟩
      rw [ht]
      rfl

/-- With the shutdown channel already closed and drained, the polling
select's shutdown branch is immediately ready while the poll timer is
still pending, so the sub-loop observes the shutdown at once. -/
lemma try_polling_mode_closed (sched : List SchedToken) (s : MonState) (n : Nat) :
    try_polling_mode sched s true n
      = ⟨sched, s, true, [Action.shutdownObserved], .Shutdown⟩ := by
  cases sched with
  | nil => rfl
  | cons tok rest =>
    cases tok with
    | wsConnect ok => rfl
    | wsRecv e => rfl
    | shutdown => rfl
    | pollTick r => cases r <;> rfl

/-- Behaviour of the polling sub-loop started with the shutdown channel
open: either it never observes shutdown (trace marker-free, exit is not
`Shutdown`), or its trace ends in the single shutdown observation and it
exits with `Shutdown`. -/
lemma try_polling_mode_spec (sched : List SchedToken) :
    ∀ (s : MonState) (n : Nat),
    (markerFree (try_polling_mode sched s false n).trace = true
      ∧ (try_polling_mode sched s false n).closed = false
      ∧ (try_polling_mode sched s false n).exit ≠ .Shutdown)
    ∨ (∃ t, (try_polling_mode sched s false n).trace = t ++ [Action.shutdownObserved]
        ∧ markerFree t = true ∧ (try_polling_mode sched s false n).closed = true
        ∧ (try_polling_mode sched s false n).exit = .Shutdown) := by
  induction sched with
  | nil => intro s n; exact Or.inl ⟨rfl, rfl, fun h => nomatch h⟩
  | cons tok rest ih =>
    intro s n
    match tok with
    | .wsConnect _ => exact Or.inl ⟨rfl, rfl, fun h => nomatch h⟩
    | .wsRecv _ => exact Or.inl ⟨rfl, rfl, fun h => nomatch h⟩
    | .shutdown => exact Or.inr ⟨[], rfl, rfl, rfl, rfl⟩
    | .pollTick (.gotPhase p) =>
      refine Or.inl ⟨?_, rfl, fun h => nomatch h⟩
      exact markerFree_cons rfl (markerFree_emits (handle_phase_change p s).2)
    | .pollTick .requestFailed =>
      have hstep :
          try_polling_mode (SchedToken.pollTick .requestFailed :: rest) s false n
          = ⟨(try_polling_mode rest s false (n + 1)).rest,
             (try_polling_mode rest s false (n + 1)).state,
             (try_polling_mode rest s false (n + 1)).closed,
             .pollDiscover .requestFailed :: (try_polling_mode rest s false (n + 1)).trace,
             (try_polling_mode rest s false (n + 1)).exit⟩ := rfl
      rw [hstep]
      rcases ih s (n + 1) with ⟨h1, h2, h3⟩ | ⟨t, ht, hmf, hc, hex⟩
      · exact Or.inl ⟨markerFree_cons rfl h1, h2, h3⟩
      · refine Or.inr ⟨.pollDiscover .requestFailed :: t, ?_, markerFree_cons rfl hmf, hc, hex⟩
        rw [ht]
        rfl
    | .pollTick .discoveryFailed =>
      rw [try_polling_discoveryFailed_step]
      by_cases hgt : n + 1 > 5
      · rw [if_pos hgt]
        refine Or.inl ⟨?_, rfl, fun h => nomatch h⟩
        exact markerFree_cons rfl (markerFree_emits (pollNoneStep s).2)
      · rw [if_neg hgt]
        rcases ih (pollNoneStep s).1 (n + 1) with ⟨h1, h2, h3⟩ | ⟨t, ht, hmf, hc, hex⟩
        · refine Or.inl ⟨?_, h2, h3⟩
          exact markerFree_cons rfl (markerFree_append (markerFree_emits (pollNoneStep s).2) h1)
        · refine Or.inr ⟨.pollDiscover .discoveryFailed :: ((pollNoneStep s).2.map .emit ++ t),
            ?_, markerFree_cons rfl (markerFree_append (markerFree_emits (pollNoneStep s).2) hmf),
            hc, hex⟩
          rw [ht]
          simp

lemma tailMarkers_cons_sleep {d : Nat} {t : List Action} :
    tailMarkers (Action.sleepBackoff d :: t) = tailMarkers t := by
  simp [tailMarkers, isMarker]

lemma run_monitor_loop_spec (fuel : Nat) :
    ∀ (sched : List SchedToken) (s : MonState) (mode : MonitorMode) (delay : Nat),
    tailMarkers (run_monitor_loop fuel sched s mode delay false).1 = true
    ∧ (Action.shutdownObserved ∈ (run_monitor_loop fuel sched s mode delay false).1
        → (run_monitor_loop fuel sched s mode delay false).2 = .stopped) := by
  induction fuel with
  | zero =>
    intro sched s mode delay
    exact ⟨rfl, fun h => absurd h (List.not_mem_nil _)⟩
  | succ fuel ih =>
    intro sched s mode delay
    rw [run_monitor_loop]
    cases hh : headIsShutdown sched with
    | true =>
      rw [if_pos (by simp [hh])]
      exact ⟨rfl, fun _ => rfl⟩
    | false =>
      rw [if_neg (by simp [hh])]
      have hspec := try_websocket_mode_spec sched s
      cases hw : try_websocket_mode sched s false with
      | mk wr ws' wc wt wex =>
        rw [hw] at hspec
        dsimp only at hspec ⊢
        cases wex with
        | outOfSched =>
          rcases hspec with ⟨hmf, _⟩ | ⟨t, ht, hmf, hcl, hex⟩
          · exact ⟨tailMarkers_of_markerFree hmf,
              fun h => absurd h (not_mem_of_markerFree hmf)⟩
          · exact nomatch hex
        | connectFailed =>
          rcases hspec with ⟨hwmf, rfl⟩ | ⟨t, ht, hmf, hcl, hex⟩
          · have pspec := try_polling_mode_spec wr ws' 0
            cases hp : try_polling_mode wr ws' false 0 with
            | mk pr ps' pc pt pex =>
              rw [hp] at pspec
              dsimp only at pspec ⊢
              cases pex with
              | outOfSched =>
                rcases pspec with ⟨hpmf, _, _⟩ | ⟨t, ht, hmf, hcl, hex⟩
                · exact ⟨tailMarkers_of_markerFree (markerFree_append hwmf hpmf),
                    fun h => absurd h (not_mem_of_markerFree (markerFree_append hwmf hpmf))⟩
                · exact nomatch hex
              | Shutdown =>
                rcases pspec with ⟨_, _, hne⟩ | ⟨t, ht, hmf, hcl, _⟩
                · exact absurd rfl hne
                · refine ⟨?_, fun _ => rfl⟩
                  rw [ht, ← List.append_assoc]
                  exact tailMarkers_snoc_marker (markerFree_append hwmf hmf)
              | ClientConnected =>
                rcases pspec with ⟨hpmf, rfl, _⟩ | ⟨t, ht, hmf, hcl, hex⟩
                · cases hr : run_monitor_loop fuel pr ps'
                      (if mode = MonitorMode.WebSocket then MonitorMode.Polling else mode)
                      1 false with
                  | mk tr ex =>
                    have hih := ih pr ps'
                      (if mode = MonitorMode.WebSocket then MonitorMode.Polling else mode) 1
                    rw [hr] at hih
                    dsimp only at hih ⊢
                    refine ⟨?_, ?_⟩
                    · rw [tailMarkers_append _ (markerFree_append hwmf hpmf)]
                      exact hih.1
                    · intro h
                      rcases List.mem_append.mp h with h' | h'
                      · exact absurd h' (not_mem_of_markerFree (markerFree_append hwmf hpmf))
                      · exact hih.2 h'
                · exact nomatch hex
              | ClientDisconnected =>
                rcases pspec with ⟨hpmf, rfl, _⟩ | ⟨t, ht, hmf, hcl, hex⟩
                · cases hr : run_monitor_loop fuel pr ps'
                      (if mode = MonitorMode.WebSocket then MonitorMode.Polling else mode)
                      (nextReconnectDelay delay) false with
                  | mk tr ex =>
                    have hih := ih pr ps'
                      (if mode = MonitorMode.WebSocket then MonitorMode.Polling else mode)
                      (nextReconnectDelay delay)
                    rw [hr] at hih
                    dsimp only at hih ⊢
                    refine ⟨?_, ?_⟩
                    · rw [tailMarkers_append _ (markerFree_append hwmf hpmf),
                          tailMarkers_cons_sleep]
                      exact hih.1
                    · intro h
                      rcases List.mem_append.mp h with h' | h'
                      · exact absurd h' (not_mem_of_markerFree (markerFree_append hwmf hpmf))
                      · rcases List.mem_cons.mp h' with h3 | h3
                        · exact nomatch h3
                        · exact hih.2 h3
                · exact nomatch hex
          · exact nomatch hex
        | ok =>
          rcases hspec with ⟨hwmf, rfl⟩ | ⟨t, ht, hmf, rfl, _⟩
          · have pspec := try_polling_mode_spec wr ws' 0
            cases hp : try_polling_mode wr ws' false 0 with
            | mk pr ps' pc pt pex =>
              rw [hp] at pspec
              dsimp only at pspec ⊢
              cases pex with
              | outOfSched =>
                rcases pspec with ⟨hpmf, _, _⟩ | ⟨t, ht, hmf, hcl, hex⟩
                · exact ⟨tailMarkers_of_markerFree (markerFree_append hwmf hpmf),
                    fun h => absurd h (not_mem_of_markerFree (markerFree_append hwmf hpmf))⟩
                · exact nomatch hex
              | Shutdown =>
                rcases pspec with ⟨_, _, hne⟩ | ⟨t, ht, hmf, hcl, _⟩
                · exact absurd rfl hne
                · refine ⟨?_, fun _ => rfl⟩
                  rw [ht, ← List.append_assoc]
                  exact tailMarkers_snoc_marker (markerFree_append hwmf hmf)
              | ClientConnected =>
                rcases pspec with ⟨hpmf, rfl, _⟩ | ⟨t, ht, hmf, hcl, hex⟩
                · cases hr : run_monitor_loop fuel pr ps' MonitorMode.WebSocket 1 false with
                  | mk tr ex =>
                    have hih := ih pr ps' MonitorMode.WebSocket 1
                    rw [hr] at hih
                    dsimp only at hih ⊢
                    refine ⟨?_, ?_⟩
                    · rw [tailMarkers_append _ (markerFree_append hwmf hpmf)]
                      exact hih.1
                    · intro h
                      rcases List.mem_append.mp h with h' | h'
                      · exact absurd h' (not_mem_of_markerFree (markerFree_append hwmf hpmf))
                      · exact hih.2 h'
                · exact nomatch hex
              | ClientDisconnected =>
                rcases pspec with ⟨hpmf, rfl, _⟩ | ⟨t, ht, hmf, hcl, hex⟩
                · cases hr : run_monitor_loop fuel pr ps' MonitorMode.WebSocket
                      (nextReconnectDelay 1) false with
                  | mk tr ex =>
                    have hih := ih pr ps' MonitorMode.WebSocket (nextReconnectDelay 1)
                    rw [hr] at hih
                    dsimp only at hih ⊢
                    refine ⟨?_, ?_⟩
                    · rw [tailMarkers_append _ (markerFree_append hwmf hpmf),
                          tailMarkers_cons_sleep]
                      exact hih.1
                    · intro h
                      rcases List.mem_append.mp h with h' | h'
                      · exact absurd h' (not_mem_of_markerFree (markerFree_append hwmf hpmf))
                      · rcases List.mem_cons.mp h' with h3 | h3
                        · exact nomatch h3
                        · exact hih.2 h3
                · exact nomatch hex
          · rw [try_polling_mode_closed]
            dsimp only
            refine ⟨?_, fun _ => rfl⟩
            rw [ht]
            exact tailMarkers_snoc_two hmf

/-- C3: once any wait point of the orchestration loop observes the
shutdown signal (the action `shutdownObserved`), the loop ends entirely:
every action after the first observation is itself a shutdown
observation (in particular no further WebSocket connection attempt, no
poll, no emission and no backoff sleep occurs), and the loop exits with
`stopped`.  Quantified over every schedule of environment events, every
monitor state, mode, and reconnect delay, with the shutdown channel
initially open. -/
theorem claim_C3_shutdown_ends_loop :
    ∀ (fuel : Nat) (sched : List SchedToken) (s : MonState)
      (mode : MonitorMode) (delay : Nat),
    tailMarkers (run_monitor_loop fuel sched s mode delay false).1 = true
    ∧ (Action.shutdownObserved ∈ (run_monitor_loop fuel sched s mode delay false).1
        → (run_monitor_loop fuel sched s mode delay false).2 = RunExit.stopped) :=
  fun fuel => run_monitor_loop_spec fuel

/-- C3 witness: a schedule that delivers the shutdown signal immediately
is observed and stops the loop. -/
theorem claim_C3_shutdown_ends_loop_witness :
    Action.shutdownObserved
        ∈ (run_monitor_loop 2 [SchedToken.shutdown] ⟨.None, .None⟩ .Polling 1 false).1
      ∧ (run_monitor_loop 2 [SchedToken.shutdown] ⟨.None, .None⟩ .Polling 1 false).2
          = RunExit.stopped :=
  ⟨by decide,
   (claim_C3_shutdown_ends_loop 2 [SchedToken.shutdown] ⟨.None, .None⟩ .Polling 1).2
     (by decide)⟩

end PackLeague
